import Mathlib

/-!
Verification of the browser-side helper script `static/js/main.js` of the
machine-monitoring dashboard, together with a spec-modelled Metric Engine
(the engine itself is declared in the repository's README but its code is
not among the supplied sources).

JavaScript `Date` values are embedded as `Int` milliseconds since the Unix
epoch (ECMA-262 time values).  JavaScript numbers used only in order
comparisons (bottleneck scores) are embedded as `ℚ`.

The file is laid out as definitions first, then theorems.
-/

/-! ## Definitions -/

/-- Milliseconds per day (ECMA-262 `msPerDay`). -/
def msPerDay : Int := 86400000

/-- ECMA-262 `Day(t)`: the day number containing time value `t`
(floor division; `/` on `Int` is Euclidean division, which is floor
division for a positive divisor). -/
def civilDay (t : Int) : Int := t / msPerDay

/-- ECMA-262 `TimeWithinDay(t)`: milliseconds into the UTC day. -/
def timeWithinDay (t : Int) : Int := t % msPerDay

/-- Day number (days since 1970-01-01) to proleptic-Gregorian UTC calendar
date `(year, month, day)` with `month ∈ [1,12]`, `day ∈ [1,31]`.  This is
the standard era/century/year decomposition of the civil calendar and
models ECMA-262 `YearFromTime` / `MonthFromTime` / `DateFromTime`. -/
def civilFromDays (z : Int) : Int × Int × Int :=
  let zz : Int := z + 719468
  let era : Int := zz / 146097
  let doe : Int := zz % 146097
  let c : Int := (4 * doe + 3) / 146097
  let doc : Int := (4 * doe + 3) % 146097 / 4
  let yoc : Int := (4 * doc + 3) / 1461
  let doy : Int := (4 * doc + 3) % 1461 / 4
  let y : Int := 400 * era + 100 * c + yoc
  let mp : Int := (5 * doy + 2) / 153
  let d : Int := doy - (153 * mp + 2) / 5 + 1
  let m : Int := if mp < 10 then mp + 3 else mp - 9
  (if mp < 10 then y else y + 1, m, d)

/-- Calendar date to day number (ECMA-262 `MakeDay`); the `d` argument may
lie outside `[1, days-in-month]`, in which case the result rolls over to
the neighbouring months/years, exactly as `MakeDay` normalises. -/
def daysFromCivil (y m d : Int) : Int :=
  let yy : Int := if m ≤ 2 then y - 1 else y
  let era : Int := yy / 400
  let yoe : Int := yy % 400
  let c : Int := yoe / 100
  let yoc : Int := yoe % 100
  let mp : Int := if 2 < m then m - 3 else m + 9
  let doy : Int := (153 * mp + 2) / 5 + d - 1
  let doe : Int := 36524 * c + 1461 * yoc / 4 + doy
  146097 * era + doe - 719468

/-- The UTC calendar year of a time value. -/
def utcYear (t : Int) : Int := (civilFromDays (civilDay t)).1

/-- The UTC calendar month (1..12) of a time value. -/
def utcMonth (t : Int) : Int := (civilFromDays (civilDay t)).2.1

/-- The UTC day of month (1..31) of a time value. -/
def utcDayOfMonth (t : Int) : Int := (civilFromDays (civilDay t)).2.2

/-- The decimal digit character of `n % 10`. -/
def digitChar (n : Nat) : Char := Char.ofNat (48 + n % 10)

/-- Two-digit zero-padded decimal rendering (exact for `n ≤ 99`). -/
def pad2 (n : Nat) : String := String.mk [digitChar (n / 10), digitChar n]

/-- Three-digit zero-padded decimal rendering (exact for `n ≤ 999`). -/
def pad3 (n : Nat) : String := String.mk [digitChar (n / 100), digitChar (n / 10), digitChar n]

/-- Four-digit zero-padded decimal rendering (exact for `n ≤ 9999`). -/
def pad4 (n : Nat) : String :=
  String.mk [digitChar (n / 1000), digitChar (n / 100), digitChar (n / 10), digitChar n]

/-- Six-digit zero-padded decimal rendering (exact for `n ≤ 999999`). -/
def pad6 (n : Nat) : String :=
  String.mk [digitChar (n / 100000), digitChar (n / 10000), digitChar (n / 1000),
    digitChar (n / 100), digitChar (n / 10), digitChar n]

/-- ECMA-262 year rendering in `Date.prototype.toISOString`: four digits
for years 0..9999, otherwise the expanded-year form (a sign followed by
six digits). -/
def yearString (y : Int) : String :=
  if 0 ≤ y ∧ y ≤ 9999 then pad4 y.toNat
  else if y < 0 then "-" ++ pad6 (-y).toNat
  else "+" ++ pad6 y.toNat

/-- The date portion of the ISO string of a time value. -/
def dateString (t : Int) : String :=
  yearString (utcYear t) ++ "-" ++ pad2 (utcMonth t).toNat ++ "-" ++
    pad2 (utcDayOfMonth t).toNat

/-- The `HH:mm:ss.sssZ` time portion of the ISO string of a time value. -/
def timeString (t : Int) : String :=
  pad2 (timeWithinDay t / 3600000).toNat ++ ":" ++
  pad2 (timeWithinDay t % 3600000 / 60000).toNat ++ ":" ++
  pad2 (timeWithinDay t % 60000 / 1000).toNat ++ "." ++
  pad3 (timeWithinDay t % 1000).toNat ++ "Z"

/-- Model of `Date.prototype.toISOString` on a (valid) time value. -/
def toISOString (t : Int) : String := dateString t ++ "T" ++ timeString t

/-- A JavaScript time value is valid when its magnitude is at most
`8.64e15` milliseconds (ECMA-262 time value range). -/
def validTime (t : Int) : Prop :=
  -8640000000000000 ≤ t ∧ t ≤ 8640000000000000

/-- Embedding of `formatDate` from `static/js/main.js`:
`date.toISOString().split('T')[0]` (the single-character separator split
is modelled as a character split). -/
def formatDate (t : Int) : String :=
  List.headD ((toISOString t).split (fun c => c == 'T')) ""

/-- A string none of whose characters is `'T'`. -/
def NoTChar (s : String) : Prop := ∀ c ∈ s.data, c ≠ 'T'

/-- The object literal `{ start_time, end_time }` returned by
`getDateRange`. -/
structure DateRange where
  start_time : String
  end_time : String
deriving DecidableEq

/-- ECMA-262 `Date.prototype.getDate` (day of month), in the UTC model of
the environment (no timezone offset). -/
def jsGetDate (t : Int) : Int := utcDayOfMonth t

/-- ECMA-262 `Date.prototype.setDate(v)` in the UTC model: rebuild the
time value from the current year and month with day-of-month `v`
(`MakeDay` normalises out-of-range `v` across month/year boundaries),
keeping the time within the day. -/
def jsSetDate (t v : Int) : Int :=
  daysFromCivil (utcYear t) (utcMonth t) v * msPerDay + timeWithinDay t

/-- Embedding of `getDateRange` from `static/js/main.js`: `end` is now,
`start` is now with `setDate(getDate() - days)` applied, both rendered
through `formatDate`. -/
def getDateRange (t : Int) (days : Int := 30) : DateRange :=
  { start_time := formatDate (jsSetDate t (jsGetDate t - days)),
    end_time := formatDate t }

/-- Embedding of `getBottleneckLevelHTML` from `static/js/main.js`: the
severity label wrapped in a coloured `<span>`, with the same fixed
`4.5`/`2.5` strict breakpoints as the text variant. -/
def getBottleneckLevelHTML (score : ℚ) : String :=
  if score > 4.5 then "<span class=\"text-danger\">严重</span>"
  else if score > 2.5 then "<span class=\"text-warning\">中等</span>"
  else "<span class=\"text-success\">轻微</span>"

/-- Embedding of `getBottleneckLevel` from `static/js/main.js`: the plain
severity label for a bottleneck score. -/
def getBottleneckLevel (score : ℚ) : String :=
  if score > 4.5 then "严重"
  else if score > 2.5 then "中等"
  else "轻微"

/-- A `<span>` with a CSS class around a text, as built by
`getBottleneckLevelHTML`. -/
def spanOf (cls txt : String) : String :=
  "<span class=\"" ++ cls ++ "\">" ++ txt ++ "</span>"

/-- The CSS class paired with each severity label in
`getBottleneckLevelHTML`. -/
def levelClass (lvl : String) : String :=
  if lvl = "严重" then "text-danger"
  else if lvl = "中等" then "text-warning"
  else "text-success"

/-- Severity order of the labels: minor (轻微) < moderate (中等) <
severe (严重). -/
def sevRank (lvl : String) : Nat :=
  if lvl = "严重" then 2 else if lvl = "中等" then 1 else 0

/-- Modelled from the spec: the error taxonomy of §7 (the Metric Engine
code, `efficiency_analyzer.py`, is declared in the README but not among
the supplied sources). -/
inductive MetricError where
  | insufficientData
  | schemaMismatch
deriving DecidableEq

/-- Modelled from the spec: the per-window inputs of the Metric Engine of
§4.2 (planned production time, actual run time, ideal cycle time, total
and good piece counts). -/
structure WindowInput where
  planned_production_time : ℚ
  actual_run_time : ℚ
  ideal_cycle_time : ℚ
  total_count : ℚ
  good_count : ℚ
deriving DecidableEq

/-- Modelled from the spec: the ratio fields of a MetricResult. -/
structure MetricResult where
  availability : ℚ
  performance : ℚ
  quality : ℚ
  oee : ℚ
deriving DecidableEq

/-- Clamp a ratio to `[0, 1]`. -/
def clamp01 (x : ℚ) : ℚ := min 1 (max 0 x)

/-- Modelled from the spec: `availability = actual_run_time /
planned_production_time`, clamped to `[0,1]`, failing with
`InsufficientData` when the denominator is zero (§4.2). -/
def computeAvailability (w : WindowInput) : Except MetricError ℚ :=
  if w.planned_production_time = 0 then Except.error MetricError.insufficientData
  else Except.ok (clamp01 (w.actual_run_time / w.planned_production_time))

/-- Modelled from the spec: `performance = (ideal_cycle_time ×
total_count) / actual_run_time`, clamped to `[0,1]`; every division is
guarded, so a zero denominator is `InsufficientData` (§4.2). -/
def computePerformance (w : WindowInput) : Except MetricError ℚ :=
  if w.actual_run_time = 0 then Except.error MetricError.insufficientData
  else Except.ok (clamp01 (w.ideal_cycle_time * w.total_count / w.actual_run_time))

/-- Modelled from the spec: `quality = good_count / total_count`, failing
with `InsufficientData` if `total_count` is zero (§4.2). -/
def computeQuality (w : WindowInput) : Except MetricError ℚ :=
  if w.total_count = 0 then Except.error MetricError.insufficientData
  else Except.ok (w.good_count / w.total_count)

/-- Modelled from the spec: the Metric Engine of §4.2 on one window,
combining the three guarded ratios and setting
`oee = availability × performance × quality`. -/
def computeMetrics (w : WindowInput) : Except MetricError MetricResult :=
  match computeAvailability w, computePerformance w, computeQuality w with
  | Except.ok a, Except.ok p, Except.ok q =>
      Except.ok { availability := a, performance := p, quality := q, oee := a * p * q }
  | Except.error e, _, _ => Except.error e
  | _, Except.error e, _ => Except.error e
  | _, _, Except.error e => Except.error e

/-! ## Theorems -/

/-- Century split of a day-of-era: the quotient `(4·doe+3)/146097` is the
century index (0..3) and `((4·doe+3) % 146097)/4` the day within that
century, which starts `36524` days into the era per century. -/
theorem centurySplit (doe : Int) (h1 : 0 ≤ doe) (h2 : doe ≤ 146096) :
    0 ≤ (4 * doe + 3) / 146097 ∧ (4 * doe + 3) / 146097 ≤ 3 ∧
    (4 * doe + 3) % 146097 / 4 = doe - 36524 * ((4 * doe + 3) / 146097) ∧
    0 ≤ (4 * doe + 3) % 146097 / 4 ∧ (4 * doe + 3) % 146097 / 4 ≤ 36524 := by
  omega

/-- Year split of a day-of-century: the quotient `(4·doc+3)/1461` is the
year index (0..99) and `((4·doc+3) % 1461)/4` the day within that year,
which starts `⌊1461·yoc/4⌋` days into the century. -/
theorem yearSplit (doc : Int) (h1 : 0 ≤ doc) (h2 : doc ≤ 36524) :
    0 ≤ (4 * doc + 3) / 1461 ∧ (4 * doc + 3) / 1461 ≤ 99 ∧
    (4 * doc + 3) % 1461 / 4 = doc - 1461 * ((4 * doc + 3) / 1461) / 4 ∧
    0 ≤ (4 * doc + 3) % 1461 / 4 ∧ (4 * doc + 3) % 1461 / 4 ≤ 365 := by
  omega

/-- Month split of a (March-based) day-of-year: `(5·doy+2)/153` is the
March-based month index (0..11) and the residual day lies in `[1, 31]`. -/
theorem monthSplit (doy : Int) (h1 : 0 ≤ doy) (h2 : doy ≤ 365) :
    0 ≤ (5 * doy + 2) / 153 ∧ (5 * doy + 2) / 153 ≤ 11 ∧
    1 ≤ doy - (153 * ((5 * doy + 2) / 153) + 2) / 5 + 1 ∧
    doy - (153 * ((5 * doy + 2) / 153) + 2) / 5 + 1 ≤ 31 := by
  omega

/-- Recombining a year written as `400·era + 100·c + yoc` (with `c ∈ [0,3]`,
`yoc ∈ [0,99]`) recovers its three components. -/
theorem eraRecombine (era c yoc : Int) (hc1 : 0 ≤ c) (hc2 : c ≤ 3)
    (hy1 : 0 ≤ yoc) (hy2 : yoc ≤ 99) :
    (400 * era + 100 * c + yoc) / 400 = era ∧
    (400 * era + 100 * c + yoc) % 400 / 100 = c ∧
    (400 * era + 100 * c + yoc) % 400 % 100 = yoc := by
  omega

/-- Components of `civilFromDays z`: if `civilFromDays z = (y, m, d)` then
`m ∈ [1,12]`, `d ∈ [1,31]`, and `daysFromCivil y m d = z`. -/
theorem civilFromDays_eq (z y m d : Int) (hE : civilFromDays z = (y, m, d)) :
    (1 ≤ m ∧ m ≤ 12 ∧ 1 ≤ d ∧ d ≤ 31) ∧ daysFromCivil y m d = z := by
  have hdoe1 : 0 ≤ (z + 719468) % 146097 := by omega
  have hdoe2 : (z + 719468) % 146097 ≤ 146096 := by omega
  obtain ⟨hc1, hc2, hdoc, hdoc1, hdoc2⟩ := centurySplit ((z + 719468) % 146097) hdoe1 hdoe2
  obtain ⟨hy1, hy2, hdoy, hdoy1, hdoy2⟩ :=
    yearSplit ((4 * ((z + 719468) % 146097) + 3) % 146097 / 4) hdoc1 hdoc2
  obtain ⟨hm1, hm2, hd1, hd2⟩ := monthSplit
    ((4 * ((4 * ((z + 719468) % 146097) + 3) % 146097 / 4) + 3) % 1461 / 4) hdoy1 hdoy2
  obtain ⟨hr1, hr2, hr3⟩ := eraRecombine ((z + 719468) / 146097)
    ((4 * ((z + 719468) % 146097) + 3) / 146097)
    ((4 * ((4 * ((z + 719468) % 146097) + 3) % 146097 / 4) + 3) / 1461)
    hc1 hc2 hy1 hy2
  unfold civilFromDays at hE
  dsimp only at hE
  rw [Prod.mk.injEq, Prod.mk.injEq] at hE
  obtain ⟨hy, hm, hd⟩ := hE
  unfold daysFromCivil
  dsimp only
  subst hy hm hd
  split_ifs <;>
    (try simp only [add_sub_cancel_right, Int.add_sub_cancel, sub_add_cancel_right,
      Int.sub_add_cancel]) <;>
    (try rw [hr1, hr2, hr3]) <;>
    omega

/-- `daysFromCivil` is a left inverse of `civilFromDays`. -/
theorem daysFromCivil_civilFromDays (z : Int) :
    daysFromCivil (civilFromDays z).1 (civilFromDays z).2.1 (civilFromDays z).2.2 = z :=
  (civilFromDays_eq z (civilFromDays z).1 (civilFromDays z).2.1 (civilFromDays z).2.2 rfl).2

/-- The month produced by `civilFromDays` lies in `[1, 12]` and the day of
month in `[1, 31]`. -/
theorem civilFromDays_ranges (z : Int) :
    1 ≤ (civilFromDays z).2.1 ∧ (civilFromDays z).2.1 ≤ 12 ∧
    1 ≤ (civilFromDays z).2.2 ∧ (civilFromDays z).2.2 ≤ 31 :=
  (civilFromDays_eq z (civilFromDays z).1 (civilFromDays z).2.1 (civilFromDays z).2.2 rfl).1

/-- `daysFromCivil` shifts linearly in its day-of-month argument. -/
theorem daysFromCivil_day_shift (y m d k : Int) :
    daysFromCivil y m (d - k) = daysFromCivil y m d - k := by
  unfold daysFromCivil
  dsimp only
  split_ifs <;> ring

theorem digitChar_ne_T (n : Nat) : digitChar n ≠ 'T' := by
  have h : n % 10 < 10 := Nat.mod_lt _ (by norm_num)
  have hall : ∀ k : Fin 10, Char.ofNat (48 + k.val) ≠ 'T' := by decide
  exact hall ⟨n % 10, h⟩

theorem noTChar_append (a b : String) (ha : NoTChar a) (hb : NoTChar b) :
    NoTChar (a ++ b) := by
  intro c hc
  rw [String.data_append] at hc
  rcases List.mem_append.mp hc with h | h
  exacts [ha c h, hb c h]

theorem noTChar_pad2 (n : Nat) : NoTChar (pad2 n) := by
  intro c hc
  simp only [pad2, List.mem_cons, List.not_mem_nil, or_false] at hc
  rcases hc with h | h <;> subst h <;> exact digitChar_ne_T _

theorem noTChar_pad4 (n : Nat) : NoTChar (pad4 n) := by
  intro c hc
  simp only [pad4, List.mem_cons, List.not_mem_nil, or_false] at hc
  rcases hc with h | h | h | h <;> subst h <;> exact digitChar_ne_T _

theorem noTChar_pad6 (n : Nat) : NoTChar (pad6 n) := by
  intro c hc
  simp only [pad6, List.mem_cons, List.not_mem_nil, or_false] at hc
  rcases hc with h | h | h | h | h | h <;> subst h <;> exact digitChar_ne_T _

theorem noTChar_hyphen : NoTChar "-" := by
  intro c hc
  have hd : ("-" : String).data = ['-'] := rfl
  rw [hd] at hc
  simp only [List.mem_cons, List.not_mem_nil, or_false] at hc
  subst hc
  decide

theorem noTChar_plus : NoTChar "+" := by
  intro c hc
  have hd : ("+" : String).data = ['+'] := rfl
  rw [hd] at hc
  simp only [List.mem_cons, List.not_mem_nil, or_false] at hc
  subst hc
  decide

theorem noTChar_yearString (y : Int) : NoTChar (yearString y) := by
  unfold yearString
  split_ifs
  · exact noTChar_pad4 _
  · exact noTChar_append _ _ noTChar_hyphen (noTChar_pad6 _)
  · exact noTChar_append _ _ noTChar_plus (noTChar_pad6 _)

theorem noTChar_dateString (t : Int) : NoTChar (dateString t) := by
  unfold dateString
  exact noTChar_append _ _ (noTChar_append _ _ (noTChar_append _ _
    (noTChar_yearString _) noTChar_hyphen) (noTChar_pad2 _)) noTChar_hyphen
    |> fun h => noTChar_append _ _ h (noTChar_pad2 _)

/-- `formatDate` returns exactly the part of the ISO string before the
`'T'` separator, i.e. the rendered UTC calendar date. -/
theorem formatDate_eq_dateString (t : Int) : formatDate t = dateString t := by
  have hT : ∀ c ∈ (dateString t).data, ¬((fun c => c == 'T') c = true) := by
    intro c hc
    simpa using noTChar_dateString t c hc
  unfold formatDate toISOString
  rw [String.split_of_valid]
  have hdata : (dateString t ++ "T" ++ timeString t).data =
      (dateString t).data ++ 'T' :: (timeString t).data := by
    rw [String.data_append, String.data_append, List.append_assoc]
    rfl
  rw [show (dateString t ++ "T" ++ timeString t).1 =
        (dateString t).data ++ 'T' :: (timeString t).data from hdata]
  rw [List.splitOnP_first _ _ hT 'T' rfl]
  rfl

theorem data_mk_eq (l : List Char) : (String.mk l).data = l := rfl

theorem string_length_eq_data (s : String) : s.length = s.data.length := rfl

/-- For years 0..9999 the rendered date string has exactly 10 characters
(`YYYY-MM-DD`). -/
theorem dateString_length (t : Int) (h1 : 0 ≤ utcYear t) (h2 : utcYear t ≤ 9999) :
    (dateString t).length = 10 := by
  unfold dateString yearString
  rw [if_pos ⟨h1, h2⟩]
  rw [string_length_eq_data, String.data_append, String.data_append,
    String.data_append, String.data_append]
  simp [pad4, pad2]

/-- `setDate(getDate() - days)` lands exactly `days` civil days earlier. -/
theorem jsSetDate_getDate_sub (t days : Int) :
    jsSetDate t (jsGetDate t - days) = t - days * msPerDay := by
  unfold jsSetDate jsGetDate
  rw [daysFromCivil_day_shift]
  unfold utcYear utcMonth utcDayOfMonth
  rw [daysFromCivil_civilFromDays]
  unfold civilDay timeWithinDay msPerDay
  omega

/-- Shifting a time value by a whole number of days shifts its day number
by exactly that amount. -/
theorem civilDay_sub_days (t days : Int) :
    civilDay (t - days * msPerDay) = civilDay t - days := by
  unfold civilDay msPerDay
  omega

theorem digitChar_inj (a b : Nat) (h : digitChar a = digitChar b) : a % 10 = b % 10 := by
  have ha : a % 10 < 10 := Nat.mod_lt _ (by norm_num)
  have hb : b % 10 < 10 := Nat.mod_lt _ (by norm_num)
  have hall : ∀ i j : Fin 10, Char.ofNat (48 + i.val) = Char.ofNat (48 + j.val) → i = j := by
    decide
  exact congrArg Fin.val (hall ⟨a % 10, ha⟩ ⟨b % 10, hb⟩ h)

/-- Within the four-digit year range, equal date strings denote equal day
numbers. -/
theorem dateString_inj (s t : Int) (hs1 : 0 ≤ utcYear s) (hs2 : utcYear s ≤ 9999)
    (ht1 : 0 ≤ utcYear t) (ht2 : utcYear t ≤ 9999)
    (h : dateString s = dateString t) : civilDay s = civilDay t := by
  obtain ⟨hms1, hms2, hds1, hds2⟩ :
      1 ≤ utcMonth s ∧ utcMonth s ≤ 12 ∧ 1 ≤ utcDayOfMonth s ∧ utcDayOfMonth s ≤ 31 :=
    civilFromDays_ranges (civilDay s)
  obtain ⟨hmt1, hmt2, hdt1, hdt2⟩ :
      1 ≤ utcMonth t ∧ utcMonth t ≤ 12 ∧ 1 ≤ utcDayOfMonth t ∧ utcDayOfMonth t ≤ 31 :=
    civilFromDays_ranges (civilDay t)
  unfold dateString yearString at h
  rw [if_pos ⟨hs1, hs2⟩, if_pos ⟨ht1, ht2⟩] at h
  have hdata := congrArg String.data h
  rw [String.data_append, String.data_append, String.data_append, String.data_append,
    String.data_append, String.data_append, String.data_append, String.data_append] at hdata
  simp only [pad4, pad2, data_mk_eq, List.cons_append, List.nil_append,
    List.cons.injEq, and_true] at hdata
  obtain ⟨e1, e2, e3, e4, -, e5, e6, -, e7, e8⟩ := hdata
  have f1 := digitChar_inj _ _ e1
  have f2 := digitChar_inj _ _ e2
  have f3 := digitChar_inj _ _ e3
  have f4 := digitChar_inj _ _ e4
  have f5 := digitChar_inj _ _ e5
  have f6 := digitChar_inj _ _ e6
  have f7 := digitChar_inj _ _ e7
  have f8 := digitChar_inj _ _ e8
  have hy : utcYear s = utcYear t := by omega
  have hm : utcMonth s = utcMonth t := by omega
  have hd : utcDayOfMonth s = utcDayOfMonth t := by omega
  have hrs : daysFromCivil (utcYear s) (utcMonth s) (utcDayOfMonth s) = civilDay s :=
    daysFromCivil_civilFromDays (civilDay s)
  have hrt : daysFromCivil (utcYear t) (utcMonth t) (utcDayOfMonth t) = civilDay t :=
    daysFromCivil_civilFromDays (civilDay t)
  rw [← hrs, ← hrt, hy, hm, hd]

/-! ## Bottleneck classification lemmas -/

theorem getBottleneckLevel_at_46 : getBottleneckLevel 4.6 = "严重" := by
  unfold getBottleneckLevel
  rw [if_pos (show (4.6 : ℚ) > 4.5 by norm_num)]

theorem getBottleneckLevel_at_26 : getBottleneckLevel 2.6 = "中等" := by
  unfold getBottleneckLevel
  rw [if_neg (show ¬((2.6 : ℚ) > 4.5) by norm_num),
    if_pos (show (2.6 : ℚ) > 2.5 by norm_num)]

theorem getBottleneckLevel_at_10 : getBottleneckLevel 1.0 = "轻微" := by
  unfold getBottleneckLevel
  rw [if_neg (show ¬((1.0 : ℚ) > 4.5) by norm_num),
    if_neg (show ¬((1.0 : ℚ) > 2.5) by norm_num)]

theorem getBottleneckLevel_at_45 : getBottleneckLevel 4.5 = "中等" := by
  unfold getBottleneckLevel
  rw [if_neg (show ¬((4.5 : ℚ) > 4.5) by norm_num),
    if_pos (show (4.5 : ℚ) > 2.5 by norm_num)]

theorem getBottleneckLevel_at_25 : getBottleneckLevel 2.5 = "轻微" := by
  unfold getBottleneckLevel
  rw [if_neg (show ¬((2.5 : ℚ) > 4.5) by norm_num),
    if_neg (show ¬((2.5 : ℚ) > 2.5) by norm_num)]

/-! ## Claim theorems -/

/-- C1: `getBottleneckLevel` returns the severe label (严重) iff the score
exceeds 4.5, the moderate label (中等) iff the score lies in `(2.5, 4.5]`,
and the minor label (轻微) iff the score is at most 2.5; the inputs 4.6,
2.6 and 1.0 map to severe, moderate and minor, and the boundary scores 4.5
and 2.5 map to moderate and minor because the comparisons are strict. -/
theorem getBottleneckLevel_thresholds (s : ℚ) :
    (getBottleneckLevel s = "严重" ↔ 4.5 < s) ∧
    (getBottleneckLevel s = "中等" ↔ 2.5 < s ∧ s ≤ 4.5) ∧
    (getBottleneckLevel s = "轻微" ↔ s ≤ 2.5) ∧
    getBottleneckLevel 4.6 = "严重" ∧
    getBottleneckLevel 2.6 = "中等" ∧
    getBottleneckLevel 1.0 = "轻微" ∧
    getBottleneckLevel 4.5 = "中等" ∧
    getBottleneckLevel 2.5 = "轻微" := by
  refine ⟨?_, ?_, ?_, getBottleneckLevel_at_46, getBottleneckLevel_at_26,
    getBottleneckLevel_at_10, getBottleneckLevel_at_45, getBottleneckLevel_at_25⟩
  · unfold getBottleneckLevel
    split_ifs with h1 h2
    · exact iff_of_true rfl h1
    · exact iff_of_false (by decide) h1
    · exact iff_of_false (by decide) (fun hc => h2 (by linarith))
  · unfold getBottleneckLevel
    split_ifs with h1 h2
    · exact iff_of_false (by decide) (fun hc => absurd h1 (not_lt.mpr hc.2))
    · exact iff_of_true rfl ⟨h2, not_lt.mp h1⟩
    · exact iff_of_false (by decide) (fun hc => h2 hc.1)
  · unfold getBottleneckLevel
    split_ifs with h1 h2
    · exact iff_of_false (by decide) (fun hc => by linarith)
    · exact iff_of_false (by decide) (fun hc => absurd h2 (not_lt.mpr hc))
    · exact iff_of_true rfl (not_lt.mp h2)

/-- C2: bottleneck classification is deterministic: `getBottleneckLevel`
depends only on its score argument, so equal scores yield equal labels. -/
theorem getBottleneckLevel_deterministic (s1 s2 : ℚ) (h : s1 = s2) :
    getBottleneckLevel s1 = getBottleneckLevel s2 := by
  rw [h]

theorem getBottleneckLevel_deterministic_witness :
    (3 : ℚ) = 3 ∧ getBottleneckLevel 3 = getBottleneckLevel 3 :=
  ⟨rfl, getBottleneckLevel_deterministic 3 3 rfl⟩

/-- C3 counterexample: the time value of 10000-01-01T00:00:00Z is a valid
Date, yet `formatDate` returns the expanded-year form `+010000-01-01`,
which is 13 characters, not a 10-character `YYYY-MM-DD` string. -/
theorem formatDate_expanded_year_counterexample :
    validTime 253402300800000 ∧
    formatDate 253402300800000 = "+010000-01-01" ∧
    ¬((formatDate 253402300800000).length = 10) := by
  refine ⟨by constructor <;> norm_num, ?_, ?_⟩ <;>
    rw [formatDate_eq_dateString] <;> decide

/-- C3 (amended): for every valid Date whose UTC year lies in 0..9999,
`formatDate` returns exactly the date portion of the ISO string before the
`'T'` separator: the 10-character `YYYY-MM-DD` rendering of the UTC
calendar date, with no time component. -/
theorem formatDate_spec (t : Int) (hv : validTime t)
    (hy1 : 0 ≤ utcYear t) (hy2 : utcYear t ≤ 9999) :
    formatDate t = pad4 (utcYear t).toNat ++ "-" ++ pad2 (utcMonth t).toNat ++ "-" ++
      pad2 (utcDayOfMonth t).toNat ∧
    (formatDate t).length = 10 ∧
    toISOString t = formatDate t ++ "T" ++ timeString t := by
  refine ⟨?_, ?_, ?_⟩
  · rw [formatDate_eq_dateString]
    unfold dateString yearString
    rw [if_pos ⟨hy1, hy2⟩]
  · rw [formatDate_eq_dateString]
    exact dateString_length t hy1 hy2
  · rw [formatDate_eq_dateString]
    rfl

theorem formatDate_spec_witness :
    formatDate 0 = "1970-01-01" ∧ (formatDate 0).length = 10 := by
  have h := formatDate_spec 0 (by constructor <;> norm_num) (by decide) (by decide)
  refine ⟨?_, h.2.1⟩
  rw [h.1]
  decide

/-- C4 counterexample: with `days = -3000000` at epoch time 0, the start
date falls in year 10183, so `start_time` is the 13-character
expanded-year string `+010183-09-21`, not a `YYYY-MM-DD` string. -/
theorem getDateRange_expanded_year_counterexample :
    (getDateRange 0 (-3000000)).start_time = "+010183-09-21" ∧
    ¬(((getDateRange 0 (-3000000)).start_time).length = 10) := by
  have h : (getDateRange 0 (-3000000)).start_time =
      formatDate (jsSetDate 0 (jsGetDate 0 - (-3000000))) := rfl
  rw [h, jsSetDate_getDate_sub, formatDate_eq_dateString]
  exact ⟨by decide, by decide⟩

/-- C4 (amended): for every time `t` and integer `days` such that both the
current UTC year and the UTC year `days` days earlier lie in 0..9999,
`getDateRange t days` returns exactly the two fields `start_time` and
`end_time`, both 10-character `YYYY-MM-DD` strings; `end_time` renders the
calendar date of `t`, `start_time` renders the calendar date exactly
`days` days before `t` (the `setDate` arithmetic rolls over month and year
boundaries), and omitting `days` defaults it to 30. -/
theorem getDateRange_spec (t days : Int)
    (hv1 : validTime t) (hv2 : validTime (t - days * msPerDay))
    (hy1 : 0 ≤ utcYear t) (hy2 : utcYear t ≤ 9999)
    (hy3 : 0 ≤ utcYear (t - days * msPerDay)) (hy4 : utcYear (t - days * msPerDay) ≤ 9999) :
    getDateRange t days =
      { start_time := dateString (t - days * msPerDay), end_time := dateString t } ∧
    (getDateRange t days).start_time.length = 10 ∧
    (getDateRange t days).end_time.length = 10 ∧
    civilDay (t - days * msPerDay) = civilDay t - days ∧
    getDateRange t = getDateRange t 30 := by
  have hs : (getDateRange t days).start_time = formatDate (t - days * msPerDay) := by
    show formatDate (jsSetDate t (jsGetDate t - days)) = _
    rw [jsSetDate_getDate_sub]
  refine ⟨?_, ?_, ?_, civilDay_sub_days t days, rfl⟩
  · show DateRange.mk _ _ = _
    rw [show formatDate (jsSetDate t (jsGetDate t - days)) =
      formatDate (t - days * msPerDay) from hs]
    rw [formatDate_eq_dateString, formatDate_eq_dateString]
  · rw [hs, formatDate_eq_dateString]
    exact dateString_length _ hy3 hy4
  · show (formatDate t).length = 10
    rw [formatDate_eq_dateString]
    exact dateString_length t hy1 hy2

theorem getDateRange_spec_witness :
    (getDateRange 0 30).start_time = dateString (0 - 30 * msPerDay) ∧
    (getDateRange 0 30).start_time.length = 10 ∧
    (getDateRange 0 30).end_time.length = 10 := by
  have h := getDateRange_spec 0 30 (by constructor <;> norm_num)
    (by constructor <;> norm_num [msPerDay]) (by decide) (by decide) (by decide) (by decide)
  exact ⟨congrArg DateRange.start_time h.1, h.2.1, h.2.2.1⟩

/-- C5 counterexample: with `days = 0` the two endpoints coincide, so the
returned range has `start_time` equal to `end_time`, violating the
claimed strict `start < end` for every days argument. -/
theorem getDateRange_zero_days_counterexample :
    (getDateRange 0 0).start_time = (getDateRange 0 0).end_time := by
  show formatDate (jsSetDate 0 (jsGetDate 0 - 0)) = formatDate 0
  rw [jsSetDate_getDate_sub]
  norm_num

/-- C5 (amended): for every `days ≥ 1` (which includes the default 30) and
every current time whose current and shifted UTC years lie in 0..9999, the
range produced by `getDateRange` satisfies the Window invariant strictly:
the start day number precedes the end day number and the two rendered date
strings differ. -/
theorem getDateRange_window (t days : Int) (hdays : 1 ≤ days)
    (hy1 : 0 ≤ utcYear t) (hy2 : utcYear t ≤ 9999)
    (hy3 : 0 ≤ utcYear (t - days * msPerDay)) (hy4 : utcYear (t - days * msPerDay) ≤ 9999) :
    civilDay (t - days * msPerDay) < civilDay t ∧
    (getDateRange t days).start_time = dateString (t - days * msPerDay) ∧
    (getDateRange t days).end_time = dateString t ∧
    (getDateRange t days).start_time ≠ (getDateRange t days).end_time := by
  have hs : (getDateRange t days).start_time = dateString (t - days * msPerDay) := by
    show formatDate (jsSetDate t (jsGetDate t - days)) = _
    rw [jsSetDate_getDate_sub, formatDate_eq_dateString]
  have he : (getDateRange t days).end_time = dateString t := formatDate_eq_dateString t
  have hlt : civilDay (t - days * msPerDay) < civilDay t := by
    rw [civilDay_sub_days]
    omega
  refine ⟨hlt, hs, he, ?_⟩
  rw [hs, he]
  intro hcontra
  have := dateString_inj _ _ hy3 hy4 hy1 hy2 hcontra
  omega

theorem getDateRange_window_witness :
    civilDay (0 - 1 * msPerDay) < civilDay 0 ∧
    (getDateRange 0 1).start_time ≠ (getDateRange 0 1).end_time := by
  have h := getDateRange_window 0 1 (by norm_num) (by decide) (by decide) (by decide) (by decide)
  exact ⟨h.1, h.2.2.2⟩

/-- C6: `getBottleneckLevelHTML` and `getBottleneckLevel` agree for every
score: the HTML is exactly a `<span>` around the text label returned by
`getBottleneckLevel`, and the CSS class corresponds one-to-one with the
level (`text-danger` iff 严重, `text-warning` iff 中等, `text-success` iff
轻微), because both use the same 4.5/2.5 strict breakpoints. -/
theorem getBottleneckLevelHTML_agrees (s : ℚ) :
    getBottleneckLevelHTML s =
      spanOf (levelClass (getBottleneckLevel s)) (getBottleneckLevel s) ∧
    (levelClass (getBottleneckLevel s) = "text-danger" ↔ getBottleneckLevel s = "严重") ∧
    (levelClass (getBottleneckLevel s) = "text-warning" ↔ getBottleneckLevel s = "中等") ∧
    (levelClass (getBottleneckLevel s) = "text-success" ↔ getBottleneckLevel s = "轻微") := by
  unfold getBottleneckLevelHTML getBottleneckLevel
  split_ifs <;> exact ⟨by decide, by decide, by decide, by decide⟩

/-- C7 (spec-modelled): every successfully computed MetricResult has
`oee = availability × performance × quality`, exactly (the model computes
in `ℚ`), hence in particular within the stated `1e-9` tolerance. -/
theorem computeMetrics_oee_product (w : WindowInput) (r : MetricResult)
    (h : computeMetrics w = Except.ok r) :
    r.oee = r.availability * r.performance * r.quality ∧
    |r.oee - r.availability * r.performance * r.quality| ≤ 1 / 1000000000 := by
  unfold computeMetrics at h
  rcases hA : computeAvailability w with eA | a <;> rw [hA] at h <;>
  rcases hP : computePerformance w with eP | p <;> rw [hP] at h <;>
  rcases hQ : computeQuality w with eQ | q <;> rw [hQ] at h <;>
    simp only [] at h
  case ok.ok.ok =>
    obtain rfl : ({ availability := a, performance := p, quality := q, oee := a * p * q } :
        MetricResult) = r := by
      cases h
      rfl
    exact ⟨rfl, by norm_num⟩
  all_goals cases h

theorem computeMetrics_oee_product_witness :
    (⟨5/6, 7/8, 33/35, 11/16⟩ : MetricResult).oee =
      (⟨5/6, 7/8, 33/35, 11/16⟩ : MetricResult).availability *
      (⟨5/6, 7/8, 33/35, 11/16⟩ : MetricResult).performance *
      (⟨5/6, 7/8, 33/35, 11/16⟩ : MetricResult).quality := by
  have h := computeMetrics_oee_product ⟨480, 400, 1, 350, 330⟩ ⟨5/6, 7/8, 33/35, 11/16⟩ (by
    unfold computeMetrics computeAvailability computePerformance computeQuality clamp01
    norm_num)
  exact h.1

/-- C8 (spec-modelled): when a window's records have `total_count = 0`,
the quality computation fails with `InsufficientData` — never a silent 0
or a crash — and consequently the Metric Engine produces no MetricResult
for that window. -/
theorem computeQuality_zero_total (w : WindowInput) (h : w.total_count = 0) :
    computeQuality w = Except.error MetricError.insufficientData ∧
    ∀ r, computeMetrics w ≠ Except.ok r := by
  have hq : computeQuality w = Except.error MetricError.insufficientData := by
    unfold computeQuality
    rw [if_pos h]
  refine ⟨hq, fun r hr => ?_⟩
  unfold computeMetrics at hr
  rw [hq] at hr
  rcases hA : computeAvailability w with eA | a <;> rw [hA] at hr <;>
    rcases hP : computePerformance w with eP | p <;> rw [hP] at hr <;>
    simp only [] at hr <;> cases hr

theorem computeQuality_zero_total_witness :
    computeQuality ⟨480, 400, 1, 0, 0⟩ = Except.error MetricError.insufficientData :=
  (computeQuality_zero_total ⟨480, 400, 1, 0, 0⟩ rfl).1

/-- C9: `getBottleneckLevel` is monotone in the score: a lower score never
receives a more severe label, under the ordering
轻微 (minor) < 中等 (moderate) < 严重 (severe). -/
theorem getBottleneckLevel_monotone (s1 s2 : ℚ) (h : s1 ≤ s2) :
    sevRank (getBottleneckLevel s1) ≤ sevRank (getBottleneckLevel s2) := by
  unfold getBottleneckLevel
  split_ifs <;> first
    | decide
    | (exfalso; linarith)

theorem getBottleneckLevel_monotone_witness :
    sevRank (getBottleneckLevel 1) ≤ sevRank (getBottleneckLevel 5) :=
  getBottleneckLevel_monotone 1 5 (by norm_num)

/-- C10: `getBottleneckLevel` is total: every score receives one of the
three labels (no error or missing label); every score at most 2.5 —
including negative scores — is classified minor (轻微), every score above
4.5 — including scores above 5 — is classified severe (严重), and in
particular any 0..1 efficiency score passed in by mistake is always
classified minor. -/
theorem getBottleneckLevel_total (s : ℚ) :
    (getBottleneckLevel s = "严重" ∨ getBottleneckLevel s = "中等" ∨
      getBottleneckLevel s = "轻微") ∧
    (s ≤ 2.5 → getBottleneckLevel s = "轻微") ∧
    (4.5 < s → getBottleneckLevel s = "严重") ∧
    (0 ≤ s → s ≤ 1 → getBottleneckLevel s = "轻微") := by
  unfold getBottleneckLevel
  split_ifs with h1 h2 <;>
    refine ⟨by simp, fun hc => ?_, fun hc => ?_, fun hc1 hc2 => ?_⟩ <;>
    first | rfl | linarith | (exfalso; linarith)

theorem getBottleneckLevel_total_witness :
    getBottleneckLevel (-3) = "轻微" ∧ getBottleneckLevel 100 = "严重" :=
  ⟨(getBottleneckLevel_total (-3)).2.1 (by norm_num),
    (getBottleneckLevel_total 100).2.2.1 (by norm_num)⟩
